import Mathlib

/-
  Verification development for the Novile editor wrapper
  (src/src/editor.cpp): a Qt widget that drives an embedded Ace
  editor by concatenating JavaScript snippet strings and evaluating
  them in the page. We embed the snippet construction exactly as the
  C++ builds the strings, give a small semantics for the snippet
  language that the wrapper emits (modelled from the spec, since the
  page-side HTML/JS resources are not part of src/), and prove the
  spec claims against it.
-/

namespace Novile

/-- The single-quote character (codepoint 39), the quote used by every
JavaScript snippet that editor.cpp builds. -/
def qc : Char := Char.ofNat 39

/-- The single-quote character as a one-character string; snippet
builders below concatenate it exactly where the C++ source has a
literal quote inside its string constants. -/
def qs : String := String.mk [qc]

/-- The backslash character (codepoint 92). -/
def bslash : Char := Char.ofNat 92

/-! ### Decimal printing (model of QString::number) -/

/-- One decimal digit as a character. -/
def digitChar : Nat → Char
  | 0 => '0' | 1 => '1' | 2 => '2' | 3 => '3' | 4 => '4'
  | 5 => '5' | 6 => '6' | 7 => '7' | 8 => '8' | 9 => '9'
  | _ => '0'

/-- Numeric value of a decimal digit character. -/
def digitVal (c : Char) : Nat := c.toNat - 48

/-- Fuel-indexed most-significant-first decimal digit list. -/
def natDecimalAux : Nat → Nat → List Char
  | 0, _ => []
  | fuel + 1, n =>
    if n < 10 then [digitChar n]
    else natDecimalAux fuel (n / 10) ++ [digitChar (n % 10)]

/-- Decimal digit list of a natural number. -/
def natDecimal (n : Nat) : List Char := natDecimalAux (n + 1) n

/-- Modelled from the spec: QString::number on a C++ int renders the
signed decimal representation. We model the int argument as an
unbounded integer (the claims are about line ranges, not about machine
overflow). -/
def intDecimal (n : Int) : String :=
  if n < 0 then String.mk ('-' :: natDecimal n.natAbs)
  else String.mk (natDecimal n.toNat)

/-! ### The snippet language emitted by editor.cpp

Modelled from the spec: the page hosts an Ace editor plus a wrapper
helper script. The wrapper exposes a `property` accessor over
page-side properties, and the editor object exposes the calls that
editor.cpp invokes. A snippet is a sequence of statements separated
by semicolons (a trailing semicolon is allowed); a string literal is
delimited by single quotes and any character other than a single
quote or a backslash stands for itself inside it (the spec names
quote and backslash as the corrupting characters). A snippet that
does not parse is a JavaScript syntax error: evaluating it changes
nothing and yields an invalid value. -/

/-- Abstract syntax of the statements the wrapper can emit. -/
inductive Stmt where
  | propRead (name : String)
  | propWrite (name : String) (value : Bool)
  | setReadOnlyJs (b : Bool)
  | setValueJs (s : String)
  | clearSelectionJs
  | gotoLineJs (n : Int)
  | getScriptJs (url : String)
  | setModeJs (name : String)
  | setThemeJs (name : String)
deriving DecidableEq

/-- Consume an expected sequence of characters, or fail. -/
def dropPre : List Char → List Char → Option (List Char)
  | [], cs => some cs
  | _ :: _, [] => none
  | p :: ps, c :: cs => if c = p then dropPre ps cs else none

/-- True of the characters that may appear inside a single-quoted
string literal: everything except the quote and the backslash. -/
def litOk (c : Char) : Bool := c ≠ qc && c ≠ bslash

/-- Take the longest run of literal-safe characters. -/
def takeLit : List Char → List Char × List Char
  | [] => ([], [])
  | c :: cs =>
    if litOk c then
      let p := takeLit cs
      (c :: p.1, p.2)
    else ([], c :: cs)

/-- Parse a single-quoted string literal body followed by the closing
quote, returning the literal content. -/
def parseQuoted (cs : List Char) : Option (String × List Char) :=
  match takeLit cs with
  | (lit, rest) =>
    match rest with
    | c :: rest2 => if c = qc then some (String.mk lit, rest2) else none
    | [] => none

/-- Take the longest run of decimal digit characters. -/
def takeDigits : List Char → List Char × List Char
  | [] => ([], [])
  | c :: cs =>
    if c.isDigit then
      let p := takeDigits cs
      (c :: p.1, p.2)
    else ([], c :: cs)

/-- Value of a decimal digit run (most significant first). -/
def parseNatDigits (ds : List Char) : Nat :=
  ds.foldl (fun a c => 10 * a + digitVal c) 0

/-- Parse a nonempty decimal digit run. -/
def parseNatPre (cs : List Char) : Option (Nat × List Char) :=
  match takeDigits cs with
  | ([], _) => none
  | (ds, rest) => some (parseNatDigits ds, rest)

/-- Statement alternative: property read or write. -/
def parsePropertyS (cs : List Char) : Option (Stmt × List Char) :=
  match dropPre ("property(".data ++ [qc]) cs with
  | none => none
  | some cs1 =>
    match parseQuoted cs1 with
    | none => none
    | some (nm, cs2) =>
      match dropPre [')'] cs2 with
      | some cs3 => some (.propRead nm, cs3)
      | none =>
        match dropPre ", true)".data cs2 with
        | some cs3 => some (.propWrite nm true, cs3)
        | none =>
          match dropPre ", false)".data cs2 with
          | some cs3 => some (.propWrite nm false, cs3)
          | none => none

/-- Statement alternative: editor.setReadOnly. -/
def parseSetReadOnlyS (cs : List Char) : Option (Stmt × List Char) :=
  match dropPre "editor.setReadOnly(".data cs with
  | none => none
  | some cs1 =>
    match dropPre "true)".data cs1 with
    | some cs2 => some (.setReadOnlyJs true, cs2)
    | none =>
      match dropPre "false)".data cs1 with
      | some cs2 => some (.setReadOnlyJs false, cs2)
      | none => none

/-- Statement alternative: editor.setValue. -/
def parseSetValueS (cs : List Char) : Option (Stmt × List Char) :=
  match dropPre ("editor.setValue(".data ++ [qc]) cs with
  | none => none
  | some cs1 =>
    match parseQuoted cs1 with
    | none => none
    | some (s, cs2) =>
      match dropPre [')'] cs2 with
      | some cs3 => some (.setValueJs s, cs3)
      | none => none

/-- Statement alternative: editor.selection.clearSelection. -/
def parseClearSelS (cs : List Char) : Option (Stmt × List Char) :=
  match dropPre "editor.selection.clearSelection()".data cs with
  | none => none
  | some cs1 => some (.clearSelectionJs, cs1)

/-- Statement alternative: editor.gotoLine with a signed decimal
argument. -/
def parseGotoLineS (cs : List Char) : Option (Stmt × List Char) :=
  match dropPre "editor.gotoLine(".data cs with
  | none => none
  | some cs1 =>
    match cs1 with
    | [] => none
    | c :: cs2 =>
      if c = '-' then
        match parseNatPre cs2 with
        | none => none
        | some (n, cs3) =>
          match dropPre [')'] cs3 with
          | some cs4 => some (.gotoLineJs (-(n : Int)), cs4)
          | none => none
      else
        match parseNatPre (c :: cs2) with
        | none => none
        | some (n, cs3) =>
          match dropPre [')'] cs3 with
          | some cs4 => some (.gotoLineJs (n : Int), cs4)
          | none => none

/-- Statement alternative: jQuery getScript. -/
def parseGetScriptS (cs : List Char) : Option (Stmt × List Char) :=
  match dropPre ("$.getScript(".data ++ [qc]) cs with
  | none => none
  | some cs1 =>
    match parseQuoted cs1 with
    | none => none
    | some (u, cs2) =>
      match dropPre [')'] cs2 with
      | some cs3 => some (.getScriptJs u, cs3)
      | none => none

/-- Statement alternative: editor.getSession().setMode. -/
def parseSetModeS (cs : List Char) : Option (Stmt × List Char) :=
  match dropPre ("editor.getSession().setMode(".data ++ [qc]) cs with
  | none => none
  | some cs1 =>
    match parseQuoted cs1 with
    | none => none
    | some (m, cs2) =>
      match dropPre [')'] cs2 with
      | some cs3 => some (.setModeJs m, cs3)
      | none => none

/-- Statement alternative: editor.setTheme. -/
def parseSetThemeS (cs : List Char) : Option (Stmt × List Char) :=
  match dropPre ("editor.setTheme(".data ++ [qc]) cs with
  | none => none
  | some cs1 =>
    match parseQuoted cs1 with
    | none => none
    | some (t, cs2) =>
      match dropPre [')'] cs2 with
      | some cs3 => some (.setThemeJs t, cs3)
      | none => none

/-- Parse one statement: the alternatives have pairwise incompatible
leading keywords, tried in a fixed order. -/
def parseStmt (cs : List Char) : Option (Stmt × List Char) :=
  (parsePropertyS cs).orElse fun _ =>
  (parseSetReadOnlyS cs).orElse fun _ =>
  (parseSetValueS cs).orElse fun _ =>
  (parseClearSelS cs).orElse fun _ =>
  (parseGotoLineS cs).orElse fun _ =>
  (parseGetScriptS cs).orElse fun _ =>
  (parseSetModeS cs).orElse fun _ =>
  parseSetThemeS cs

/-- Parse a semicolon-separated statement sequence (trailing semicolon
allowed); fuel bounds the recursion by the input length. -/
def parseStmtsAux : Nat → List Char → Option (List Stmt)
  | 0, _ => none
  | fuel + 1, cs =>
    match parseStmt cs with
    | none => none
    | some (st, rest) =>
      match rest with
      | [] => some [st]
      | c :: rest2 =>
        if c = ';' then
          match rest2 with
          | [] => some [st]
          | _ :: _ =>
            match parseStmtsAux fuel rest2 with
            | none => none
            | some sts => some (st :: sts)
        else none

/-- Parse a whole snippet; `none` is a JavaScript syntax error. -/
def parseScript (code : String) : Option (List Stmt) :=
  parseStmtsAux (code.data.length + 1) code.data

/-! ### QVariant and its conversions -/

/-- Modelled from the spec: the value evaluateJavaScript hands back,
converted on demand to a native boolean, integer, or string. The
invalid variant stands for the implementation-defined undefined
result of a failed or value-less evaluation. -/
inductive QVariant where
  | invalid
  | boolV (b : Bool)
  | intV (n : Int)
  | stringV (s : String)
deriving DecidableEq

/-- Modelled from the spec: integer conversion; a failed evaluation
surfaces as zero. -/
def QVariant.toIntQ : QVariant → Int
  | .invalid => 0
  | .boolV b => if b then 1 else 0
  | .intV n => n
  | .stringV s => (s.toInt?).getD 0

/-- Modelled from the spec: boolean conversion; a failed evaluation
surfaces as false. -/
def QVariant.toBoolQ : QVariant → Bool
  | .invalid => false
  | .boolV b => b
  | .intV n => n ≠ 0
  | .stringV s => !(s = "" || s = "0" || s = "false")

/-- Modelled from the spec: string conversion; a failed evaluation
surfaces as the empty string. -/
def QVariant.toStringQ : QVariant → String
  | .invalid => ""
  | .boolV b => if b then "true" else "false"
  | .intV n => intDecimal n
  | .stringV s => s

/-! ### Page state and snippet evaluation -/

/-- Modelled from the spec: the observable state of the live in-page
editor: the document text, the page-side readonly property kept by the
wrapper script, the built-in read-only flag of the editor object, the
cursor line, the active mode and theme, and the dynamically loaded
script resources. -/
structure AceState where
  text : String
  readonlyProp : Bool
  editorReadOnly : Bool
  cursorLine : Int
  mode : String
  theme : String
  loadedScripts : List String
deriving DecidableEq

/-- The freshly bootstrapped page: empty document, both read-only
flags clear, nothing loaded. -/
def initialAceState : AceState :=
  { text := ""
    readonlyProp := false
    editorReadOnly := false
    cursorLine := 1
    mode := ""
    theme := ""
    loadedScripts := [] }

/-- Number of editor rows of a document: newline count plus one. -/
def countLines (s : String) : Int :=
  ((s.data.filter (fun c => c = Char.ofNat 10)).length : Int) + 1

/-- Modelled from the spec: the wrapper property accessor. Reading
lines or text re-evaluates against the live in-page state; readonly is
the stored page-side property. -/
def propValue (st : AceState) (name : String) : QVariant :=
  if name = "lines" then .intV (countLines st.text)
  else if name = "text" then .stringV st.text
  else if name = "readonly" then .boolV st.readonlyProp
  else .invalid

/-- Effect of one statement on the page, with the value it yields. -/
def evalStmt (st : AceState) : Stmt → AceState × QVariant
  | .propRead nm => (st, propValue st nm)
  | .propWrite nm v =>
    if nm = "readonly" then ({ st with readonlyProp := v }, .invalid)
    else (st, .invalid)
  | .setReadOnlyJs b => ({ st with editorReadOnly := b }, .invalid)
  | .setValueJs s => ({ st with text := s }, .invalid)
  | .clearSelectionJs => (st, .invalid)
  | .gotoLineJs n => ({ st with cursorLine := n }, .invalid)
  | .getScriptJs u => ({ st with loadedScripts := st.loadedScripts ++ [u] }, .invalid)
  | .setModeJs m => ({ st with mode := m }, .invalid)
  | .setThemeJs t => ({ st with theme := t }, .invalid)

/-- Run a statement sequence; the script yields the value of its last
statement. -/
def evalStmts (st : AceState) : List Stmt → AceState × QVariant
  | [] => (st, .invalid)
  | [s] => evalStmt st s
  | s :: s2 :: rest => evalStmts (evalStmt st s).1 (s2 :: rest)

/-- Evaluate a snippet: a syntax error leaves the page untouched and
yields the invalid value. -/
def evalScript (st : AceState) (code : String) : AceState × QVariant :=
  match parseScript code with
  | none => (st, .invalid)
  | some sts => evalStmts st sts

/-! ### The Bridge (EditorPrivate) -/

/-- Modelled from the spec: the bridge either holds a working
bootstrapped page, or is in the non-functional but non-crashing state
left behind by a failed resource load. -/
abbrev BridgeState := Option AceState

/-- EditorPrivate::executeJavaScript: run a snippet in the page and
hand back the result; on a dead page every evaluation yields the
invalid value. -/
def executeJavaScript : BridgeState → String → BridgeState × QVariant
  | none, _ => (none, .invalid)
  | some st, code =>
    let r := evalScript st code
    (some r.1, r.2)

/-! ### The Facade (Editor): snippet builders and operations

Each builder is the string concatenation performed by the
corresponding member function in src/src/editor.cpp, with `qs`
standing for the single-quote character that the C++ string constants
carry inline. Adjacent C++ string literals concatenate with nothing in
between; the builders keep the pieces visible. -/

/-- Snippet of Editor::lines. -/
def linesCode : String := "property(" ++ qs ++ "lines" ++ qs ++ ")"

/-- Editor::lines: evaluate and convert to int. -/
def Editor.lines (b : BridgeState) : Int :=
  (executeJavaScript b linesCode).2.toIntQ

/-- Snippet of Editor::gotoLine. -/
def gotoLineCode (n : Int) : String :=
  "editor.gotoLine(" ++ intDecimal n ++ ")"

/-- Editor::gotoLine: unconditionally evaluate the navigation call. -/
def Editor.gotoLine (b : BridgeState) (n : Int) : BridgeState :=
  (executeJavaScript b (gotoLineCode n)).1

/-- Snippet of Editor::text. -/
def textCode : String := "property(" ++ qs ++ "text" ++ qs ++ ")"

/-- Editor::text: evaluate and convert to string. -/
def Editor.text (b : BridgeState) : String :=
  (executeJavaScript b textCode).2.toStringQ

/-- First snippet of Editor::setText: the new text is concatenated
directly between the quotes, with no escaping. -/
def setValueCode (s : String) : String :=
  "editor.setValue(" ++ qs ++ s ++ qs ++ ")"

/-- Second snippet of Editor::setText. -/
def clearSelectionCode : String := "editor.selection.clearSelection()"

/-- Editor::setText: two evaluations in sequence. -/
def Editor.setText (b : BridgeState) (s : String) : BridgeState :=
  let b1 := (executeJavaScript b (setValueCode s)).1
  (executeJavaScript b1 clearSelectionCode).1

/-- Snippet of Editor::isReadOnly. -/
def readOnlyCode : String := "property(" ++ qs ++ "readonly" ++ qs ++ ")"

/-- Editor::isReadOnly: evaluate and convert to bool. -/
def Editor.isReadOnly (b : BridgeState) : Bool :=
  (executeJavaScript b readOnlyCode).2.toBoolQ

/-- Snippet of Editor::setReadOnly. In the C++ source each branch is
two adjacent string literals; in the true branch the first ends with a
semicolon, in the false branch it does not, so the false branch
concatenates the two statements with no separator at all. -/
def setReadOnlyCode (v : Bool) : String :=
  if v then
    ("property(" ++ qs ++ "readonly" ++ qs ++ ", true);") ++
      "editor.setReadOnly(true);"
  else
    ("property(" ++ qs ++ "readonly" ++ qs ++ ", false)") ++
      "editor.setReadOnly(false);"

/-- Editor::setReadOnly: one evaluation of the branch snippet. -/
def Editor.setReadOnly (b : BridgeState) (v : Bool) : BridgeState :=
  (executeJavaScript b (setReadOnlyCode v)).1

/-- Request string of Editor::setHighlightMode(name, url): load the
mode script, then assign the mode identifier. -/
def highlightRequest (name url : String) : String :=
  ("$.getScript(" ++ qs ++ url ++ qs ++ ");") ++
    ("editor.getSession().setMode(" ++ qs ++ "ace/mode/" ++ name ++ qs ++ ");")

/-- Editor::setHighlightMode(name, url): the escape-hatch overload. -/
def Editor.setHighlightModeStr (b : BridgeState) (name url : String) : BridgeState :=
  (executeJavaScript b (highlightRequest name url)).1

/-- Request string of Editor::setTheme(name, url). -/
def themeRequest (name url : String) : String :=
  ("$.getScript(" ++ qs ++ url ++ qs ++ ");") ++
    ("editor.setTheme(" ++ qs ++ "ace/theme/" ++ name ++ qs ++ ");")

/-- Editor::setTheme(name, url): the escape-hatch overload. -/
def Editor.setThemeStr (b : BridgeState) (name url : String) : BridgeState :=
  (executeJavaScript b (themeRequest name url)).1

/-! Modelled from the spec: the HighlightMode and Theme enumerations
are declared in editor.h, which is not part of src/; we take the
enumerators as integer codes in declaration order (the order of the
switch cases), starting at zero, and keep the argument an arbitrary
integer so that values outside the enumeration stay expressible, as
they are for a C++ enum. -/

def ModeCpp : Int := 0
def ModeCss : Int := 1
def ModeHtml : Int := 2
def ModeJavaScript : Int := 3
def ModePascal : Int := 4
def ModePhp : Int := 5
def ModePython : Int := 6
def ModeRuby : Int := 7
def ModeXml : Int := 8

def ThemeAmbiance : Int := 0
def ThemeMonokai : Int := 1
def ThemeTextMate : Int := 2

/-- Editor::setHighlightMode(HighlightMode): the switch over the
enumerators, each case delegating to the escape-hatch overload; the
switch has no default case, so any other value falls through and the
function returns having done nothing. -/
def Editor.setHighlightMode (b : BridgeState) (mode : Int) : BridgeState :=
  if mode = ModeCpp then
    Editor.setHighlightModeStr b "c_cpp" "qrc:/ace/mode-c_cpp.js"
  else if mode = ModeCss then
    Editor.setHighlightModeStr b "css" "qrc:/ace/mode-css.js"
  else if mode = ModeHtml then
    Editor.setHighlightModeStr b "html" "qrc:/ace/mode-html.js"
  else if mode = ModeJavaScript then
    Editor.setHighlightModeStr b "javascript" "qrc:/ace/mode-javascript.js"
  else if mode = ModePascal then
    Editor.setHighlightModeStr b "pascal" "qrc:/ace/mode-pascal.js"
  else if mode = ModePhp then
    Editor.setHighlightModeStr b "php" "qrc:/ace/mode-php.js"
  else if mode = ModePython then
    Editor.setHighlightModeStr b "python" "qrc:/ace/mode-python.js"
  else if mode = ModeRuby then
    Editor.setHighlightModeStr b "ruby" "qrc:/ace/mode-ruby.js"
  else if mode = ModeXml then
    Editor.setHighlightModeStr b "xml" "qrc:/ace/mode-xml.js"
  else b

/-- Editor::setTheme(Theme): the switch over the three enumerators,
no default case. -/
def Editor.setTheme (b : BridgeState) (theme : Int) : BridgeState :=
  if theme = ThemeAmbiance then
    Editor.setThemeStr b "ambiance" "qrc:/ace/theme-ambiance.js"
  else if theme = ThemeMonokai then
    Editor.setThemeStr b "monokai" "qrc:/ace/theme-monokai.js"
  else if theme = ThemeTextMate then
    Editor.setThemeStr b "textmate" "qrc:/ace/theme-textmate.js"
  else b

/-! ### Spec-side enumeration tables

A second, spec-derived description of the enumeration dispatch, used
only to compare the enumeration overloads against the escape-hatch
overloads. -/

/-- Modelled from the spec: the documented table from each highlight
mode enumerator to its mode identifier and script resource path. -/
def specModeTable : Int → Option (String × String) := fun m =>
  if m = 0 then some ("c_cpp", "qrc:/ace/mode-c_cpp.js")
  else if m = 1 then some ("css", "qrc:/ace/mode-css.js")
  else if m = 2 then some ("html", "qrc:/ace/mode-html.js")
  else if m = 3 then some ("javascript", "qrc:/ace/mode-javascript.js")
  else if m = 4 then some ("pascal", "qrc:/ace/mode-pascal.js")
  else if m = 5 then some ("php", "qrc:/ace/mode-php.js")
  else if m = 6 then some ("python", "qrc:/ace/mode-python.js")
  else if m = 7 then some ("ruby", "qrc:/ace/mode-ruby.js")
  else if m = 8 then some ("xml", "qrc:/ace/mode-xml.js")
  else none

/-- Modelled from the spec: the documented table from each theme
enumerator to its theme identifier and script resource path. -/
def specThemeTable : Int → Option (String × String) := fun t =>
  if t = 0 then some ("ambiance", "qrc:/ace/theme-ambiance.js")
  else if t = 1 then some ("monokai", "qrc:/ace/theme-monokai.js")
  else if t = 2 then some ("textmate", "qrc:/ace/theme-textmate.js")
  else none

/-! ### Construction-time sequencing

Modelled from the spec: the constructor runs the bootstrap sequence
to completion before returning. Editor::Editor builds the bridge and
calls startAceWidget, which starts the page load, blocks in a scoped
event loop until the load-finished signal fires, injects the callback
object into the page, and evaluates the wrapper helper script. Only
after the constructor returns can the owner invoke a public
operation, so a client execution is the bootstrap event sequence
followed by the events of the public calls, in order. -/

/-- Observable events at the bridge. -/
inductive BridgeEvent where
  | loadStarted
  | loadFinished
  | callbackInjected
  | helperEvaluated
  | publicEval (code : String)
deriving DecidableEq

/-- A public Facade call, with its argument. -/
inductive ApiCall where
  | callLines
  | callGotoLine (n : Int)
  | callText
  | callSetText (s : String)
  | callIsReadOnly
  | callSetReadOnly (b : Bool)
  | callSetHighlightMode (m : Int)
  | callSetTheme (t : Int)

/-- The snippets that Editor::setHighlightMode(HighlightMode)
evaluates: one request for an enumerator, none for any other value. -/
def setHighlightModeCodes (m : Int) : List String :=
  if m = ModeCpp then [highlightRequest "c_cpp" "qrc:/ace/mode-c_cpp.js"]
  else if m = ModeCss then [highlightRequest "css" "qrc:/ace/mode-css.js"]
  else if m = ModeHtml then [highlightRequest "html" "qrc:/ace/mode-html.js"]
  else if m = ModeJavaScript then [highlightRequest "javascript" "qrc:/ace/mode-javascript.js"]
  else if m = ModePascal then [highlightRequest "pascal" "qrc:/ace/mode-pascal.js"]
  else if m = ModePhp then [highlightRequest "php" "qrc:/ace/mode-php.js"]
  else if m = ModePython then [highlightRequest "python" "qrc:/ace/mode-python.js"]
  else if m = ModeRuby then [highlightRequest "ruby" "qrc:/ace/mode-ruby.js"]
  else if m = ModeXml then [highlightRequest "xml" "qrc:/ace/mode-xml.js"]
  else []

/-- The snippets that Editor::setTheme(Theme) evaluates. -/
def setThemeCodes (t : Int) : List String :=
  if t = ThemeAmbiance then [themeRequest "ambiance" "qrc:/ace/theme-ambiance.js"]
  else if t = ThemeMonokai then [themeRequest "monokai" "qrc:/ace/theme-monokai.js"]
  else if t = ThemeTextMate then [themeRequest "textmate" "qrc:/ace/theme-textmate.js"]
  else []

/-- The snippets a public call evaluates, in order. -/
def apiCodes : ApiCall → List String
  | .callLines => [linesCode]
  | .callGotoLine n => [gotoLineCode n]
  | .callText => [textCode]
  | .callSetText s => [setValueCode s, clearSelectionCode]
  | .callIsReadOnly => [readOnlyCode]
  | .callSetReadOnly b => [setReadOnlyCode b]
  | .callSetHighlightMode m => setHighlightModeCodes m
  | .callSetTheme t => setThemeCodes t

/-- The events of the constructor-time bootstrap, in the order
startAceWidget performs them: page load started, the scoped event loop
exits when the load finishes, the Novile callback object is injected,
and the wrapper helper script is evaluated. -/
def bootstrapTrace : List BridgeEvent :=
  [.loadStarted, .loadFinished, .callbackInjected, .helperEvaluated]

/-- The evaluate events a public call issues. -/
def callTrace (c : ApiCall) : List BridgeEvent :=
  (apiCodes c).map .publicEval

/-- The event trace of an execution: construction first, then the
public calls the owner makes on the constructed widget. -/
def programTrace (calls : List ApiCall) : List BridgeEvent :=
  bootstrapTrace ++ (calls.map callTrace).flatten

/-! ### Helper lemmas about strings and the parser -/

lemma stringMkData (s : String) : String.mk s.data = s := by cases s; rfl

lemma dataAppend (a b : String) : (a ++ b).data = a.data ++ b.data := by
  cases a; cases b; rfl

lemma dropPrePre (p rest : List Char) : dropPre p (p ++ rest) = some rest := by
  induction p with
  | nil => rfl
  | cons c cs ih => simp [dropPre, ih]

lemma takeLitApp (l : List Char) (c : Char) (r : List Char)
    (hl : ∀ x ∈ l, litOk x = true) (hc : litOk c = false) :
    takeLit (l ++ c :: r) = (l, c :: r) := by
  induction l with
  | nil => simp [takeLit, hc]
  | cons a as ih =>
    have ha : litOk a = true := hl a (by simp)
    have ih2 := ih (fun x hx => hl x (by simp [hx]))
    simp [takeLit, ha, ih2]

lemma litOkQc : litOk qc = false := by decide

lemma propPatD : "property(".data = ['p','r','o','p','e','r','t','y','('] := rfl

lemma setRoPatD : "editor.setReadOnly(".data =
    ['e','d','i','t','o','r','.','s','e','t','R','e','a','d','O','n','l','y','('] := rfl

lemma setValPatD : "editor.setValue(".data =
    ['e','d','i','t','o','r','.','s','e','t','V','a','l','u','e','('] := rfl

lemma clearSelPatD : "editor.selection.clearSelection()".data =
    ['e','d','i','t','o','r','.','s','e','l','e','c','t','i','o','n','.',
     'c','l','e','a','r','S','e','l','e','c','t','i','o','n','(',')'] := rfl

lemma gotoPatD : "editor.gotoLine(".data =
    ['e','d','i','t','o','r','.','g','o','t','o','L','i','n','e','('] := rfl

lemma getScriptPatD : "$.getScript(".data =
    ['$','.','g','e','t','S','c','r','i','p','t','('] := rfl

lemma setModePatD : "editor.getSession().setMode(".data =
    ['e','d','i','t','o','r','.','g','e','t','S','e','s','s','i','o','n','(',')',
     '.','s','e','t','M','o','d','e','('] := rfl

lemma setThemePatD : "editor.setTheme(".data =
    ['e','d','i','t','o','r','.','s','e','t','T','h','e','m','e','('] := rfl

lemma setValueCodeD (s : String) :
    (setValueCode s).data =
      'e' :: 'd' :: 'i' :: 't' :: 'o' :: 'r' :: '.' :: 's' :: 'e' :: 't' :: 'V' :: 'a' :: 'l' :: 'u' :: 'e' :: '(' ::qc::
        (s.data ++ qc :: [')']) := by
  have h2 : qs.data = [qc] := rfl
  have h3 : ")".data = [')'] := rfl
  simp [setValueCode, dataAppend, setValPatD, h2, h3]

lemma parseStmtSetValue (s : String) (h : ∀ c ∈ s.data, litOk c = true) :
    parseStmt ((setValueCode s).data) = some (.setValueJs s, []) := by
  have htl : takeLit (s.data ++ qc :: [')']) = (s.data, qc :: [')']) :=
    takeLitApp _ _ _ h litOkQc
  rw [setValueCodeD]
  simp [parseStmt, parsePropertyS, parseSetReadOnlyS, parseSetValueS, parseClearSelS,
    parseGotoLineS, parseGetScriptS, parseSetModeS, parseSetThemeS,
    propPatD, setRoPatD, setValPatD, clearSelPatD, gotoPatD, getScriptPatD,
    setModePatD, setThemePatD, dropPre, parseQuoted, htl, Option.orElse, stringMkData]

/-! ### Helper lemmas about decimal digits -/

lemma digitCharVal (d : Nat) (h : d < 10) : digitVal (digitChar d) = d := by
  interval_cases d <;> rfl

lemma digitCharDigit (d : Nat) (h : d < 10) : (digitChar d).isDigit = true := by
  interval_cases d <;> rfl

lemma parseNatDigitsApp (xs : List Char) (c : Char) :
    parseNatDigits (xs ++ [c]) = 10 * parseNatDigits xs + digitVal c := by
  simp [parseNatDigits, List.foldl_append]

lemma natDecimalAuxDigits :
    ∀ fuel n, n < fuel → ∀ c ∈ natDecimalAux fuel n, c.isDigit = true := by
  intro fuel
  induction fuel with
  | zero => intro n h; omega
  | succ f ih =>
    intro n h c hc
    by_cases h10 : n < 10
    · simp [natDecimalAux, h10] at hc
      subst hc
      exact digitCharDigit n h10
    · simp [natDecimalAux, h10] at hc
      rcases hc with hc | hc
      · exact ih (n / 10) (by omega) c hc
      · subst hc
        exact digitCharDigit (n % 10) (by omega)

lemma natDecimalAuxVal :
    ∀ fuel n, n < fuel → parseNatDigits (natDecimalAux fuel n) = n := by
  intro fuel
  induction fuel with
  | zero => intro n h; omega
  | succ f ih =>
    intro n h
    by_cases h10 : n < 10
    · simp [natDecimalAux, h10, parseNatDigits]
      have := digitCharVal n h10
      simp [parseNatDigits] at this ⊢
      omega
    · have hdiv : n / 10 < f := by
        have h1 : n / 10 < n := Nat.div_lt_self (by omega) (by omega)
        omega
      simp [natDecimalAux, h10, parseNatDigitsApp, ih (n / 10) hdiv,
        digitCharVal (n % 10) (by omega)]
      omega

lemma natDecimalNeNil (n : Nat) : natDecimal n ≠ [] := by
  unfold natDecimal natDecimalAux
  by_cases h10 : n < 10 <;> simp [h10]

lemma natDecimalDigits (n : Nat) : ∀ c ∈ natDecimal n, c.isDigit = true :=
  natDecimalAuxDigits (n + 1) n (by omega)

lemma natDecimalVal (n : Nat) : parseNatDigits (natDecimal n) = n :=
  natDecimalAuxVal (n + 1) n (by omega)

lemma takeDigitsApp (l : List Char) (c : Char) (r : List Char)
    (hl : ∀ x ∈ l, x.isDigit = true) (hc : c.isDigit = false) :
    takeDigits (l ++ c :: r) = (l, c :: r) := by
  induction l with
  | nil => simp [takeDigits, hc]
  | cons a as ih =>
    have ha : a.isDigit = true := hl a (by simp)
    have ih2 := ih (fun x hx => hl x (by simp [hx]))
    simp [takeDigits, ha, ih2]

lemma parseNatPreDecimal (m : Nat) (r : List Char) (c : Char) (hc : c.isDigit = false) :
    parseNatPre (natDecimal m ++ c :: r) = some (m, c :: r) := by
  have htd := takeDigitsApp (natDecimal m) c r (natDecimalDigits m) hc
  unfold parseNatPre
  rw [htd]
  obtain ⟨d, t, hdt⟩ := List.exists_cons_of_ne_nil (natDecimalNeNil m)
  rw [hdt]
  simp [← hdt, natDecimalVal m]

lemma gotoLineCodeDPos (n : Int) (hn : 0 ≤ n) :
    (gotoLineCode n).data =
      'e' :: 'd' :: 'i' :: 't' :: 'o' :: 'r' :: '.' :: 'g' :: 'o' :: 't' :: 'o' :: 'L' :: 'i' :: 'n' :: 'e' :: '(' ::
        (natDecimal n.toNat ++ [')']) := by
  have h3 : ")".data = [')'] := rfl
  have h4 : (intDecimal n).data = natDecimal n.toNat := by
    unfold intDecimal
    rw [if_neg (by omega)]
  simp [gotoLineCode, dataAppend, gotoPatD, h3, h4]

lemma gotoLineCodeDNeg (n : Int) (hn : n < 0) :
    (gotoLineCode n).data =
      'e' :: 'd' :: 'i' :: 't' :: 'o' :: 'r' :: '.' :: 'g' :: 'o' :: 't' :: 'o' :: 'L' :: 'i' :: 'n' :: 'e' :: '(' ::
        '-' ::(natDecimal n.natAbs ++ [')']) := by
  have h3 : ")".data = [')'] := rfl
  have h4 : (intDecimal n).data = '-' :: natDecimal n.natAbs := by
    unfold intDecimal
    rw [if_pos hn]
  simp [gotoLineCode, dataAppend, gotoPatD, h3, h4]

lemma parseStmtGotoLine (n : Int) :
    parseStmt ((gotoLineCode n).data) = some (.gotoLineJs n, []) := by
  have hparen : (')').isDigit = false := rfl
  by_cases hn : 0 ≤ n
  · rw [gotoLineCodeDPos n hn]
    obtain ⟨d, t, hdt⟩ := List.exists_cons_of_ne_nil (natDecimalNeNil n.toNat)
    have hddig : d.isDigit = true := natDecimalDigits n.toNat d (by rw [hdt]; simp)
    have hdne : d ≠ '-' := by
      intro h
      rw [h] at hddig
      exact absurd hddig (by decide)
    have hpn : parseNatPre (d :: (t ++ [')'])) = some (n.toNat, [')']) := by
      have := parseNatPreDecimal n.toNat [] ')' hparen
      rw [hdt] at this
      simpa using this
    rw [hdt]
    simp only [List.cons_append]
    simp [parseStmt, parsePropertyS, parseSetReadOnlyS, parseSetValueS, parseClearSelS,
      parseGotoLineS, parseGetScriptS, parseSetModeS, parseSetThemeS,
      propPatD, setRoPatD, setValPatD, clearSelPatD, gotoPatD, getScriptPatD,
      setModePatD, setThemePatD, dropPre, Option.orElse, hdne, hpn,
      Int.toNat_of_nonneg hn]
  · rw [gotoLineCodeDNeg n (by omega)]
    have hpn : parseNatPre (natDecimal n.natAbs ++ [')']) = some (n.natAbs, [')']) := by
      simpa using parseNatPreDecimal n.natAbs [] ')' hparen
    have hval : -((n.natAbs : Nat) : Int) = n := by omega
    simp [parseStmt, parsePropertyS, parseSetReadOnlyS, parseSetValueS, parseClearSelS,
      parseGotoLineS, parseGetScriptS, parseSetModeS, parseSetThemeS,
      propPatD, setRoPatD, setValPatD, clearSelPatD, gotoPatD, getScriptPatD,
      setModePatD, setThemePatD, dropPre, Option.orElse, hpn, hval]
    rw [abs_of_neg (show n < 0 by omega)]
    ring

/-! ### Whole-snippet parse results -/

lemma parseScriptSetValue (s : String) (h : ∀ c ∈ s.data, litOk c = true) :
    parseScript (setValueCode s) = some [.setValueJs s] := by
  unfold parseScript
  simp [parseStmtsAux, parseStmtSetValue s h]

lemma parseScriptGotoLine (n : Int) :
    parseScript (gotoLineCode n) = some [.gotoLineJs n] := by
  unfold parseScript
  simp [parseStmtsAux, parseStmtGotoLine n]

lemma parseScriptClearSel : parseScript clearSelectionCode = some [.clearSelectionJs] := rfl

lemma parseScriptText : parseScript textCode = some [.propRead "text"] := rfl

lemma parseScriptLines : parseScript linesCode = some [.propRead "lines"] := rfl

lemma parseScriptReadonly : parseScript readOnlyCode = some [.propRead "readonly"] := rfl

lemma parseScriptSetRoTrue :
    parseScript (setReadOnlyCode true) =
      some [.propWrite "readonly" true, .setReadOnlyJs true] := rfl

lemma parseScriptSetRoFalse : parseScript (setReadOnlyCode false) = none := rfl

/-! ### Evaluation of the concrete operations -/

lemma setTextState (st : AceState) (s : String) (h : ∀ c ∈ s.data, litOk c = true) :
    Editor.setText (some st) s = some { st with text := s } := by
  simp [Editor.setText, executeJavaScript, evalScript,
    parseScriptSetValue s h, parseScriptClearSel, evalStmts, evalStmt]

lemma textState (st : AceState) : Editor.text (some st) = st.text := by
  simp [Editor.text, executeJavaScript, evalScript, parseScriptText,
    evalStmts, evalStmt, propValue, QVariant.toStringQ]

lemma isReadOnlyState (st : AceState) : Editor.isReadOnly (some st) = st.readonlyProp := by
  simp [Editor.isReadOnly, executeJavaScript, evalScript, parseScriptReadonly,
    evalStmts, evalStmt, propValue, QVariant.toBoolQ]

lemma setReadOnlyTrueState (st : AceState) :
    Editor.setReadOnly (some st) true =
      some { st with readonlyProp := true, editorReadOnly := true } := by
  simp [Editor.setReadOnly, executeJavaScript, evalScript, parseScriptSetRoTrue,
    evalStmts, evalStmt]

lemma setReadOnlyFalseState (st : AceState) :
    Editor.setReadOnly (some st) false = some st := by
  simp [Editor.setReadOnly, executeJavaScript, evalScript, parseScriptSetRoFalse]

/-- Claim C1 (code bug): the false branch of setReadOnly concatenates
its two statements with no separating semicolon, so the snippet is a
syntactic error and evaluating it changes nothing; after
setReadOnly(true) followed by setReadOnly(false), isReadOnly() still
returns true, against the claimed consistency of repeated toggles. -/
theorem setReadOnly_false_branch_broken :
    setReadOnlyCode false =
      ("property(" ++ qs ++ "readonly" ++ qs ++ ", false)") ++ "editor.setReadOnly(false);" ∧
    parseScript (setReadOnlyCode false) = none ∧
    Editor.isReadOnly
      (Editor.setReadOnly (Editor.setReadOnly (some initialAceState) true) false) = true :=
  ⟨rfl, rfl, rfl⟩

/-- Claim C2: setText builds its first snippet by concatenating the
argument directly between single quotes with no escaping, and for an
argument containing a single quote, or one containing a backslash,
the generated snippet is not a well-formed statement. -/
theorem setText_concatenates_unescaped :
    (∀ s : String, setValueCode s = "editor.setValue(" ++ qs ++ s ++ qs ++ ")") ∧
    qc ∈ qs.data ∧
    parseScript (setValueCode qs) = none ∧
    bslash ∈ (String.mk [bslash]).data ∧
    parseScript (setValueCode (String.mk [bslash])) = none :=
  ⟨fun _ => rfl, by decide, rfl, by decide, rfl⟩

/-- Claim C3: for text free of quote and backslash characters, setText
followed by text round-trips, from any page state. -/
theorem setText_text_roundtrip (st : AceState) (s : String)
    (h : ∀ c ∈ s.data, c ≠ qc ∧ c ≠ bslash) :
    Editor.text (Editor.setText (some st) s) = s := by
  have h2 : ∀ c ∈ s.data, litOk c = true := by
    intro c hc
    have hq := h c hc
    simp [litOk, hq.1, hq.2]
  rw [setTextState st s h2, textState]

theorem setText_text_roundtrip_witness :
    (∀ c ∈ "hello world".data, c ≠ qc ∧ c ≠ bslash) ∧
    Editor.text (Editor.setText (some initialAceState) "hello world") = "hello world" :=
  ⟨by decide, setText_text_roundtrip initialAceState "hello world" (by decide)⟩

/-- Claim C4: whenever the underlying evaluation yields the invalid
value, the public getters return silent defaults: lines zero, text
empty, isReadOnly false; the operations return plain values, so no
error is propagated on any failure path. -/
theorem failed_evaluation_silent_defaults (b : BridgeState) :
    ((executeJavaScript b linesCode).2 = QVariant.invalid → Editor.lines b = 0) ∧
    ((executeJavaScript b textCode).2 = QVariant.invalid → Editor.text b = "") ∧
    ((executeJavaScript b readOnlyCode).2 = QVariant.invalid → Editor.isReadOnly b = false) := by
  refine ⟨fun h => ?_, fun h => ?_, fun h => ?_⟩ <;>
    simp [Editor.lines, Editor.text, Editor.isReadOnly, h,
      QVariant.toIntQ, QVariant.toStringQ, QVariant.toBoolQ]

theorem failed_evaluation_silent_defaults_witness :
    Editor.lines none = 0 ∧ Editor.text none = "" ∧ Editor.isReadOnly none = false :=
  ⟨(failed_evaluation_silent_defaults none).1 rfl,
   (failed_evaluation_silent_defaults none).2.1 rfl,
   (failed_evaluation_silent_defaults none).2.2 rfl⟩



lemma parseModeCssL :
    parseScript (highlightRequest "css" "qrc:/ace/mode-css.js") =
      some [.getScriptJs "qrc:/ace/mode-css.js", .setModeJs "ace/mode/css"] := rfl
lemma parseModeHtmlL :
    parseScript (highlightRequest "html" "qrc:/ace/mode-html.js") =
      some [.getScriptJs "qrc:/ace/mode-html.js", .setModeJs "ace/mode/html"] := rfl
lemma parseModeJsL :
    parseScript (highlightRequest "javascript" "qrc:/ace/mode-javascript.js") =
      some [.getScriptJs "qrc:/ace/mode-javascript.js", .setModeJs "ace/mode/javascript"] := rfl
lemma parseModePascalL :
    parseScript (highlightRequest "pascal" "qrc:/ace/mode-pascal.js") =
      some [.getScriptJs "qrc:/ace/mode-pascal.js", .setModeJs "ace/mode/pascal"] := rfl
lemma parseModePhpL :
    parseScript (highlightRequest "php" "qrc:/ace/mode-php.js") =
      some [.getScriptJs "qrc:/ace/mode-php.js", .setModeJs "ace/mode/php"] := rfl
lemma parseModePythonL :
    parseScript (highlightRequest "python" "qrc:/ace/mode-python.js") =
      some [.getScriptJs "qrc:/ace/mode-python.js", .setModeJs "ace/mode/python"] := rfl
lemma parseModeRubyL :
    parseScript (highlightRequest "ruby" "qrc:/ace/mode-ruby.js") =
      some [.getScriptJs "qrc:/ace/mode-ruby.js", .setModeJs "ace/mode/ruby"] := rfl
lemma parseModeXmlL :
    parseScript (highlightRequest "xml" "qrc:/ace/mode-xml.js") =
      some [.getScriptJs "qrc:/ace/mode-xml.js", .setModeJs "ace/mode/xml"] := rfl
lemma parseModeCppL :
    parseScript (highlightRequest "c_cpp" "qrc:/ace/mode-c_cpp.js") =
      some [.getScriptJs "qrc:/ace/mode-c_cpp.js", .setModeJs "ace/mode/c_cpp"] := rfl
lemma parseThemeAmbianceL :
    parseScript (themeRequest "ambiance" "qrc:/ace/theme-ambiance.js") =
      some [.getScriptJs "qrc:/ace/theme-ambiance.js", .setThemeJs "ace/theme/ambiance"] := rfl
lemma parseThemeMonokaiL :
    parseScript (themeRequest "monokai" "qrc:/ace/theme-monokai.js") =
      some [.getScriptJs "qrc:/ace/theme-monokai.js", .setThemeJs "ace/theme/monokai"] := rfl
lemma parseThemeTextMateL :
    parseScript (themeRequest "textmate" "qrc:/ace/theme-textmate.js") =
      some [.getScriptJs "qrc:/ace/theme-textmate.js", .setThemeJs "ace/theme/textmate"] := rfl

/-- Claim C5: each of the nine enumerated highlight modes resolves to
its documented mode identifier and script resource: the mode request
loads the documented resource and assigns the documented identifier. -/
theorem highlight_modes_resolve (st : AceState) :
    Editor.setHighlightMode (some st) ModeCpp =
      some { st with mode := "ace/mode/c_cpp",
                     loadedScripts := st.loadedScripts ++ ["qrc:/ace/mode-c_cpp.js"] } ∧
    Editor.setHighlightMode (some st) ModeCss =
      some { st with mode := "ace/mode/css",
                     loadedScripts := st.loadedScripts ++ ["qrc:/ace/mode-css.js"] } ∧
    Editor.setHighlightMode (some st) ModeHtml =
      some { st with mode := "ace/mode/html",
                     loadedScripts := st.loadedScripts ++ ["qrc:/ace/mode-html.js"] } ∧
    Editor.setHighlightMode (some st) ModeJavaScript =
      some { st with mode := "ace/mode/javascript",
                     loadedScripts := st.loadedScripts ++ ["qrc:/ace/mode-javascript.js"] } ∧
    Editor.setHighlightMode (some st) ModePascal =
      some { st with mode := "ace/mode/pascal",
                     loadedScripts := st.loadedScripts ++ ["qrc:/ace/mode-pascal.js"] } ∧
    Editor.setHighlightMode (some st) ModePhp =
      some { st with mode := "ace/mode/php",
                     loadedScripts := st.loadedScripts ++ ["qrc:/ace/mode-php.js"] } ∧
    Editor.setHighlightMode (some st) ModePython =
      some { st with mode := "ace/mode/python",
                     loadedScripts := st.loadedScripts ++ ["qrc:/ace/mode-python.js"] } ∧
    Editor.setHighlightMode (some st) ModeRuby =
      some { st with mode := "ace/mode/ruby",
                     loadedScripts := st.loadedScripts ++ ["qrc:/ace/mode-ruby.js"] } ∧
    Editor.setHighlightMode (some st) ModeXml =
      some { st with mode := "ace/mode/xml",
                     loadedScripts := st.loadedScripts ++ ["qrc:/ace/mode-xml.js"] } := by
  refine ⟨?_, ?_, ?_, ?_, ?_, ?_, ?_, ?_, ?_⟩ <;>
    simp [Editor.setHighlightMode, ModeCpp, ModeCss, ModeHtml, ModeJavaScript, ModePascal,
      ModePhp, ModePython, ModeRuby, ModeXml, Editor.setHighlightModeStr, executeJavaScript,
      evalScript, parseModeCppL, parseModeCssL, parseModeHtmlL, parseModeJsL,
      parseModePascalL, parseModePhpL, parseModePythonL, parseModeRubyL, parseModeXmlL,
      evalStmts, evalStmt]

/-- Claim C6: each of the three enumerated themes resolves to its
documented theme identifier and script resource. -/
theorem themes_resolve (st : AceState) :
    Editor.setTheme (some st) ThemeAmbiance =
      some { st with theme := "ace/theme/ambiance",
                     loadedScripts := st.loadedScripts ++ ["qrc:/ace/theme-ambiance.js"] } ∧
    Editor.setTheme (some st) ThemeMonokai =
      some { st with theme := "ace/theme/monokai",
                     loadedScripts := st.loadedScripts ++ ["qrc:/ace/theme-monokai.js"] } ∧
    Editor.setTheme (some st) ThemeTextMate =
      some { st with theme := "ace/theme/textmate",
                     loadedScripts := st.loadedScripts ++ ["qrc:/ace/theme-textmate.js"] } := by
  refine ⟨?_, ?_, ?_⟩ <;>
    simp [Editor.setTheme, ThemeAmbiance, ThemeMonokai, ThemeTextMate,
      Editor.setThemeStr, executeJavaScript, evalScript,
      parseThemeAmbianceL, parseThemeMonokaiL, parseThemeTextMateL, evalStmts, evalStmt]



/-- Claim C7: every evaluate event issued by a public operation occurs
strictly after the bootstrap sequence has finished: position three of
any execution trace is the final bootstrap step (the helper script
evaluation), and every public evaluation sits at a later position. -/
theorem bootstrap_precedes_public_evals (calls : List ApiCall) (i : Nat) (code : String)
    (h : (programTrace calls)[i]? = some (BridgeEvent.publicEval code)) :
    3 < i ∧ (programTrace calls)[3]? = some BridgeEvent.helperEvaluated := by
  constructor
  · by_contra hle
    push_neg at hle
    interval_cases i <;> simp [programTrace, bootstrapTrace] at h
  · simp [programTrace, bootstrapTrace]

theorem bootstrap_precedes_public_evals_witness :
    3 < 4 ∧ (programTrace [ApiCall.callText])[3]? = some BridgeEvent.helperEvaluated :=
  bootstrap_precedes_public_evals [ApiCall.callText] 4 textCode rfl

/-- Claim C8: gotoLine performs no bounds validation: for every
integer, negative or arbitrarily large, it evaluates exactly the
snippet invoking the navigation call on the decimal rendering of the
argument, the snippet parses as that one call carrying the argument
unchanged, and the effect is delegated to the page editor only. -/
theorem gotoLine_unvalidated (b : BridgeState) (st : AceState) (n : Int) :
    Editor.gotoLine b n =
      (executeJavaScript b ("editor.gotoLine(" ++ intDecimal n ++ ")")).1 ∧
    parseScript (gotoLineCode n) = some [Stmt.gotoLineJs n] ∧
    Editor.gotoLine (some st) n = some { st with cursorLine := n } := by
  refine ⟨rfl, parseScriptGotoLine n, ?_⟩
  simp [Editor.gotoLine, executeJavaScript, evalScript, parseScriptGotoLine n,
    evalStmts, evalStmt]

/-- Claim C9: a HighlightMode value outside the nine enumerators, and
a Theme value outside the three, fall through the switch with no
default case: no snippet is issued and the state is unchanged. -/
theorem out_of_range_enum_noop (b : BridgeState) (m t : Int)
    (hm : m < 0 ∨ 8 < m) (ht : t < 0 ∨ 2 < t) :
    setHighlightModeCodes m = [] ∧ Editor.setHighlightMode b m = b ∧
    setThemeCodes t = [] ∧ Editor.setTheme b t = b := by
  refine ⟨?_, ?_, ?_, ?_⟩
  · unfold setHighlightModeCodes
    simp only [ModeCpp, ModeCss, ModeHtml, ModeJavaScript, ModePascal, ModePhp,
      ModePython, ModeRuby, ModeXml]
    rw [if_neg (by omega : ¬(m = 0)), if_neg (by omega : ¬(m = 1)),
      if_neg (by omega : ¬(m = 2)), if_neg (by omega : ¬(m = 3)),
      if_neg (by omega : ¬(m = 4)), if_neg (by omega : ¬(m = 5)),
      if_neg (by omega : ¬(m = 6)), if_neg (by omega : ¬(m = 7)),
      if_neg (by omega : ¬(m = 8))]
  · unfold Editor.setHighlightMode
    simp only [ModeCpp, ModeCss, ModeHtml, ModeJavaScript, ModePascal, ModePhp,
      ModePython, ModeRuby, ModeXml]
    rw [if_neg (by omega : ¬(m = 0)), if_neg (by omega : ¬(m = 1)),
      if_neg (by omega : ¬(m = 2)), if_neg (by omega : ¬(m = 3)),
      if_neg (by omega : ¬(m = 4)), if_neg (by omega : ¬(m = 5)),
      if_neg (by omega : ¬(m = 6)), if_neg (by omega : ¬(m = 7)),
      if_neg (by omega : ¬(m = 8))]
  · unfold setThemeCodes
    simp only [ThemeAmbiance, ThemeMonokai, ThemeTextMate]
    rw [if_neg (by omega : ¬(t = 0)), if_neg (by omega : ¬(t = 1)),
      if_neg (by omega : ¬(t = 2))]
  · unfold Editor.setTheme
    simp only [ThemeAmbiance, ThemeMonokai, ThemeTextMate]
    rw [if_neg (by omega : ¬(t = 0)), if_neg (by omega : ¬(t = 1)),
      if_neg (by omega : ¬(t = 2))]

theorem out_of_range_enum_noop_witness :
    setHighlightModeCodes 99 = [] ∧
    Editor.setHighlightMode (some initialAceState) 99 = some initialAceState ∧
    setThemeCodes 99 = [] ∧
    Editor.setTheme (some initialAceState) 99 = some initialAceState :=
  out_of_range_enum_noop (some initialAceState) 99 99
    (Or.inr (by norm_num)) (Or.inr (by norm_num))

/-- Claim C10: for every enumerator in the documented tables, the
enumeration overload is the escape-hatch overload applied to that
enumerator's identifier and resource pair. -/
theorem enum_overload_matches_escape_hatch (b : BridgeState) (m t : Int)
    (mp tp : String × String)
    (hm : specModeTable m = some mp) (ht : specThemeTable t = some tp) :
    Editor.setHighlightMode b m = Editor.setHighlightModeStr b mp.1 mp.2 ∧
    Editor.setTheme b t = Editor.setThemeStr b tp.1 tp.2 := by
  constructor
  · unfold specModeTable at hm
    split_ifs at hm <;>
      first
        | exact Option.noConfusion hm
        | (injection hm with hmp; subst hmp; subst_vars; rfl)
  · unfold specThemeTable at ht
    split_ifs at ht <;>
      first
        | exact Option.noConfusion ht
        | (injection ht with htp; subst htp; subst_vars; rfl)

theorem enum_overload_matches_escape_hatch_witness :
    Editor.setHighlightMode (some initialAceState) 0 =
      Editor.setHighlightModeStr (some initialAceState) "c_cpp" "qrc:/ace/mode-c_cpp.js" ∧
    Editor.setTheme (some initialAceState) 1 =
      Editor.setThemeStr (some initialAceState) "monokai" "qrc:/ace/theme-monokai.js" :=
  enum_overload_matches_escape_hatch (some initialAceState) 0 1
    ("c_cpp", "qrc:/ace/mode-c_cpp.js") ("monokai", "qrc:/ace/theme-monokai.js") rfl rfl

end Novile
